import Mathlib

/-!
Verification of the kubelet summary-stats HTTP client
(pkg/sources/summary/client.go).

The client is a single-endpoint HTTP fetcher: it builds a request URL for a
node (direct mode or API-server-proxy mode), issues one GET, interprets the
HTTP status, and JSON-decodes the body into an externally defined
StatisticsSummary value.

Modelling conventions:
- The statistics payload type is opaque to the client (it is only handed to
  the JSON decoder), so the development is polymorphic in the value type S;
  the decoder (Go encoding/json Unmarshal into the target value) is a
  parameter of type String → S → S × Option String: it receives the body
  and the value's prior state and returns the value's final state next to an
  optional error message, reflecting that Unmarshal writes into the target
  in place and, on a type error in valid JSON, documentedly fills the
  decodable fields before reporting the error (a partial fill). The zero
  value of the target struct is a parameter zero : S.
- The network is abstracted by FetchOutcome: either client.Do fails, or
  reading the body fails, or a full response (status code, status line,
  body) is observed.
- fmt %q on strings is modelled as quote-wrapping (goQuote); this is exact
  for strings containing no characters that Go quoting escapes, which covers
  every string the client builds messages from in its intended domain.
- net/url URL.String is modelled for the URLs this client builds: nonempty
  scheme, host and path only (no user, query, fragment or opaque part), and
  without percent-escaping (exact for hosts and paths made of unreserved
  characters).
-/

/-- Model of Go net.JoinHostPort: wraps the host in square brackets when it
contains a colon (assumed IPv6 literal), then appends a colon and the port.
The colon test is phrased over the character list of the host. -/
def joinHostPort (host port : String) : String :=
  if host.data.contains ':' then "[" ++ host ++ "]:" ++ port
  else host ++ ":" ++ port

/-- The request URL record built by GetSummary, mirroring the url.URL literal
with fields Scheme, Host, Path (all other url.URL fields are zero there). -/
structure URL where
  scheme : String
  host : String
  path : String
deriving DecidableEq

/-- Model of Go net/url URL.String for URLs with a nonempty scheme and only
Scheme, Host and Path set: scheme, then a colon and two slashes, then the
host, then the path, with a slash inserted when the path is nonempty, does
not start with a slash, and the host is nonempty. Percent-escaping is not
modelled (exact for unreserved characters). -/
def URL.urlString (u : URL) : String :=
  u.scheme ++ "://" ++ u.host ++
    (match u.path.data, u.host.data with
     | c :: _, _ :: _ => if c = '/' then u.path else "/" ++ u.path
     | _, _ => u.path)

/-- Model of fmt %q applied to a string: wrap it in double quotes. Exact for
strings with no characters that Go quoting escapes (no double quote, no
backslash, no control characters). -/
def goQuote (s : String) : String :=
  "\"" ++ s ++ "\""

/-- Go errors surfaced by the client: the typed *ErrNotFound carrying the
requested endpoint URL, and every other error (fmt.Errorf results and
errors passed through verbatim), carrying only a message. -/
inductive GoError where
  | notFound (endpoint : String)
  | generic (msg : String)
deriving DecidableEq

/-- The Error() string of each error: ErrNotFound renders via
fmt.Sprintf with a quoted endpoint followed by the words "not found";
a generic error renders its message. -/
def GoError.message : GoError → String
  | .notFound ep => goQuote ep ++ " not found"
  | .generic m => m

/-- Model of IsNotFoundError: the type assertion err.(*ErrNotFound) succeeds
exactly on the notFound constructor; a nil error (none) is not an
ErrNotFound. -/
def IsNotFoundError : Option GoError → Bool
  | some (.notFound _) => true
  | _ => false

/-- The observable outcome of client.Do plus ioutil.ReadAll for one request:
the Do call fails with an error message, the body read fails with an error
message, or a complete response (status code, status line, body text) is
obtained. -/
inductive FetchOutcome where
  | doError (msg : String)
  | readError (msg : String)
  | response (statusCode : Nat) (status : String) (body : String)
deriving DecidableEq

/-- The configuration fields of the kubeletClient struct. The *http.Client
handle is abstracted to an optional numeric handle (none models a nil
client). -/
structure kubeletClient where
  port : Int
  deprecatedNoTLS : Bool
  useAPIProxy : Bool
  apiServerHost : String
  client : Option Nat
deriving DecidableEq

/-- The request URL GetSummary builds (client.go lines 89-106): scheme is
http when deprecatedNoTLS is set, https otherwise; in proxy mode the path is
the api/v1/nodes proxy path for the node and the host is the stored API
server host, in direct mode the path is /stats/summary/ and the host is the
node name joined with the configured port via net.JoinHostPort. -/
def kubeletClient.summaryURL (kc : kubeletClient) (host : String) : URL :=
  let scheme := if kc.deprecatedNoTLS then "http" else "https"
  if kc.useAPIProxy then
    { scheme := scheme
      host := kc.apiServerHost
      path := "api/v1/nodes/" ++ host ++ "/proxy/stats/summary/" }
  else
    { scheme := scheme
      host := joinHostPort host (toString kc.port)
      path := "/stats/summary/" }

/-- Model of kubeletClient.makeRequestAndGetValue. The value mutation of
json.Unmarshal is made explicit: the decoder takes the body and the value's
prior state v0 and yields the value's final state next to an optional error
message, so a failing decode may leave a partial fill in the value, as
encoding/json documents for type errors in valid JSON. On a Do failure the
error is returned verbatim; on a body-read failure a generic error is built;
a 404 status yields ErrNotFound carrying req.URL.String(); any other
non-200 status yields a generic error quoting the status line and body; on
200 the decoder runs, a decode failure yields a generic error quoting the
body next to the decoder's final value state, and success stores the
decoded value and returns nil. -/
def makeRequestAndGetValue {S : Type} (client : Nat) (dec : String → S → S × Option String)
    (req : URL) (v0 : S) (outcome : FetchOutcome) : S × Option GoError :=
  match client, outcome with
  | _, .doError msg => (v0, some (.generic msg))
  | _, .readError msg => (v0, some (.generic ("failed to read response body - " ++ msg)))
  | _, .response code status body =>
    if code = 404 then
      (v0, some (.notFound req.urlString))
    else if code ≠ 200 then
      (v0, some (.generic ("request failed - " ++ goQuote status ++ ", response: " ++ goQuote body)))
    else
      match dec body v0 with
      | (v, none) => (v, none)
      | (v, some e) =>
        (v, some (.generic ("failed to parse output. Response: " ++ goQuote body ++ ". Error: " ++ e)))

/-- Model of kubeletClient.GetSummary. It builds the request URL, allocates
the zero summary value, picks the configured client or the default one when
the stored client is nil, delegates to makeRequestAndGetValue, and returns
the summary value next to the error. The first component of the result is
the client's field state after the call, made explicit because the Go method
receives a pointer receiver; the method performs no writes through it. -/
def kubeletClient.GetSummary {S : Type} (kc : kubeletClient) (dec : String → S → S × Option String)
    (zero : S) (host : String) (outcome : FetchOutcome) :
    kubeletClient × S × Option GoError :=
  let url := kc.summaryURL host
  let client := kc.client.getD 0
  let r := makeRequestAndGetValue client dec url zero outcome
  (kc, r.1, r.2)

/-- The characters after the first scheme separator of a URL string, when
one is present. -/
def afterSchemeSep : List Char → Option (List Char)
  | [] => none
  | ':' :: '/' :: '/' :: rest => some rest
  | _ :: cs => afterSchemeSep cs

/-- The characters of an authority: everything up to the first slash. -/
def takeUntilSlash : List Char → List Char
  | [] => []
  | c :: cs => if c = '/' then [] else c :: takeUntilSlash cs

/-- Splits a character list at its last colon, when it has one: returns the
characters before and after that colon. -/
def lastColonSplit : List Char → Option (List Char × List Char)
  | [] => none
  | c :: rest =>
    match lastColonSplit rest with
    | some (pre, post) => some (c :: pre, post)
    | none => if c = ':' then some ([], rest) else none

/-- The authority component of a URL string: the part after the first
scheme separator and before the first slash. Model of the net/url parse
step NewKubeletClient relies on, for URLs of the plain form
scheme://host:port or scheme://host (no userinfo, no IPv6 brackets). -/
def urlAuthority (s : String) : String :=
  match afterSchemeSep s.data with
  | some rest => String.mk (takeUntilSlash rest)
  | none => ""

/-- Model of url.URL Hostname() for the same plain URL form: the authority
up to the final colon, or the whole authority when it has no colon. -/
def urlHostname (s : String) : String :=
  match lastColonSplit (urlAuthority s).data with
  | some (h, _) => String.mk h
  | none => urlAuthority s

/-- Model of url.URL Port() for the same plain URL form: the part of the
authority after the final colon, or empty when it has no colon. -/
def urlPort (s : String) : String :=
  match lastColonSplit (urlAuthority s).data with
  | some (_, p) => String.mk p
  | none => ""

/-- Modelled from the spec: the ClientConfig record handed to the
constructor (the Go file defining KubeletClientConfig is not part of this
repository snapshot; its fields are those NewKubeletClient reads: Port,
DeprecatedCompletelyInsecure, UseAPIServerProxy, and RESTConfig.Host, the
API server base URL string). -/
structure KubeletClientConfig where
  port : Int
  deprecatedCompletelyInsecure : Bool
  useAPIServerProxy : Bool
  restConfigHost : String

/-- Model of NewKubeletClient: parses the API server URL once and stores the
normalized host:port (JoinHostPort of its hostname and port) together with
the configuration flags; the constructed http.Client is abstracted to a
non-nil handle. The url.Parse failure branch is not modelled (the modelled
parser is total). -/
def NewKubeletClient (config : KubeletClientConfig) : kubeletClient :=
  { port := config.port
    deprecatedNoTLS := config.deprecatedCompletelyInsecure
    useAPIProxy := config.useAPIServerProxy
    apiServerHost := joinHostPort (urlHostname config.restConfigHost) (urlPort config.restConfigHost)
    client := some 1 }

/-- The string hay contains the string needle as a contiguous substring. -/
def strIncludes (hay needle : String) : Prop :=
  ∃ pre post, hay = pre ++ needle ++ post

/-- Decoder used for concrete runs: accepts exactly the empty JSON object,
decoding it to 0, and rejects every other body without touching the value. -/
def decEmptyObj : String → Nat → Nat × Option String :=
  fun s v => if s = "\x7b\x7d" then (0, none) else (v, some "unexpected input")

/-- Decoder modelling json.Unmarshal on a valid-but-mistyped body for the
target struct: the body named mistyped stands for valid JSON whose fields
mismatch the struct's types, so the decodable fields are written into the
value (here 7) before an UnmarshalTypeError is reported — encoding/json
documents that it skips the mistyped field and completes the unmarshaling
as best it can. Every other body is rejected without touching the value. -/
def decPartialFill : String → Nat → Nat × Option String :=
  fun s v =>
    if s = "mistyped" then (7, some "cannot unmarshal string into field of type int64")
    else (v, some "unexpected input")

theorem string_append_assoc (a b c : String) : a ++ b ++ c = a ++ (b ++ c) := by
  apply String.ext
  simp [String.data_append]

theorem strIncludes_start (s b : String) : strIncludes (goQuote s ++ b) s :=
  ⟨"\"", "\"" ++ b, by simp [goQuote, string_append_assoc]⟩

theorem strIncludes_mid (a s b : String) : strIncludes (a ++ goQuote s ++ b) s :=
  ⟨a ++ "\"", "\"" ++ b, by simp [goQuote, string_append_assoc]⟩

theorem strIncludes_end (a s : String) : strIncludes (a ++ goQuote s) s :=
  ⟨a ++ "\"", "\"", by simp [goQuote, string_append_assoc]⟩

/-- C1: with useProxy false, the request URL host is the node identifier
joined with the configured port and the path is /stats/summary/; for a node
identifier without a colon the host is literally nodeIdentifier:port; the
example config with port 10250 and node-1 yields the request URL
https://node-1:10250/stats/summary/. -/
theorem direct_mode_request_url (kc : kubeletClient) (node : String)
    (h : kc.useAPIProxy = false) :
    (kc.summaryURL node).host = joinHostPort node (toString kc.port) ∧
    (kc.summaryURL node).path = "/stats/summary/" ∧
    (node.data.contains ':' = false →
      (kc.summaryURL node).host = node ++ ":" ++ toString kc.port) ∧
    ((kubeletClient.mk 10250 false false "" none).summaryURL "node-1").urlString
      = "https://node-1:10250/stats/summary/" := by
  refine ⟨?_, ?_, ?_, by decide⟩
  · simp [kubeletClient.summaryURL, h]
  · simp [kubeletClient.summaryURL, h]
  · intro hc
    have hj : joinHostPort node (toString kc.port) = node ++ ":" ++ toString kc.port := by
      unfold joinHostPort
      rw [hc]
      simp
    simp [kubeletClient.summaryURL, h, hj]

theorem direct_mode_request_url_witness :
    ((kubeletClient.mk 10250 false false "" none).summaryURL "node-1").host = "node-1:10250" ∧
    ((kubeletClient.mk 10250 false false "" none).summaryURL "node-1").path = "/stats/summary/" := by
  have h := direct_mode_request_url (kubeletClient.mk 10250 false false "" none) "node-1" rfl
  exact ⟨h.1.trans (by decide), h.2.1⟩

/-- C2: with useProxy true, the request URL host is the apiServerHost stored
at construction and the path is the proxy path for the node; constructing
from API server URL https apiserver 6443 and asking for node-2 yields the
request URL https://apiserver:6443/api/v1/nodes/node-2/proxy/stats/summary/. -/
theorem proxy_mode_request_url (kc : kubeletClient) (node : String)
    (h : kc.useAPIProxy = true) :
    (kc.summaryURL node).host = kc.apiServerHost ∧
    (kc.summaryURL node).path = "api/v1/nodes/" ++ node ++ "/proxy/stats/summary/" ∧
    ((NewKubeletClient
        (KubeletClientConfig.mk 0 false true "https://apiserver:6443")).summaryURL "node-2").urlString
      = "https://apiserver:6443/api/v1/nodes/node-2/proxy/stats/summary/" := by
  refine ⟨?_, ?_, by decide⟩
  · simp [kubeletClient.summaryURL, h]
  · simp [kubeletClient.summaryURL, h]

theorem proxy_mode_request_url_witness :
    ((kubeletClient.mk 0 false true "apiserver:6443" none).summaryURL "node-2").host
      = "apiserver:6443" ∧
    ((kubeletClient.mk 0 false true "apiserver:6443" none).summaryURL "node-2").path
      = "api/v1/nodes/node-2/proxy/stats/summary/" := by
  have h := proxy_mode_request_url (kubeletClient.mk 0 false true "apiserver:6443" none) "node-2" rfl
  exact ⟨h.1, h.2.1.trans (by decide)⟩

/-- C7: the scheme of the constructed request URL is http exactly when
insecureNoTLS (deprecatedNoTLS) is set and https exactly when it is not,
in both proxy and direct mode. -/
theorem scheme_follows_insecure_flag (kc : kubeletClient) (node : String) :
    ((kc.summaryURL node).scheme = "http" ↔ kc.deprecatedNoTLS = true) ∧
    ((kc.summaryURL node).scheme = "https" ↔ kc.deprecatedNoTLS = false) := by
  cases hb : kc.deprecatedNoTLS <;> cases hp : kc.useAPIProxy <;>
    simp [kubeletClient.summaryURL, hb, hp]

theorem scheme_follows_insecure_flag_witness :
    ((kubeletClient.mk 10250 true false "" none).summaryURL "node-1").scheme = "http" ∧
    ((kubeletClient.mk 10250 false true "apiserver:6443" none).summaryURL "node-1").scheme = "https" := by
  constructor
  · exact (scheme_follows_insecure_flag (kubeletClient.mk 10250 true false "" none) "node-1").1.mpr rfl
  · exact (scheme_follows_insecure_flag (kubeletClient.mk 10250 false true "apiserver:6443" none) "node-1").2.mpr rfl

/-- C8: in proxy mode the configured port does not influence the request
URL, and in direct mode the stored API server host does not influence the
request URL (each field is only consulted in its own mode). -/
theorem config_fields_consulted_by_mode
    (p1 p2 p : Int) (noTLS : Bool) (apiHost ah1 ah2 node : String) (cl : Option Nat) :
    (kubeletClient.mk p1 noTLS true apiHost cl).summaryURL node
      = (kubeletClient.mk p2 noTLS true apiHost cl).summaryURL node ∧
    (kubeletClient.mk p noTLS false ah1 cl).summaryURL node
      = (kubeletClient.mk p noTLS false ah2 cl).summaryURL node := by
  constructor <;> simp [kubeletClient.summaryURL]

/-- C3: a 404 response makes GetSummary return the typed not-found error
carrying the request URL string: IsNotFoundError holds of it, its message
contains the full request URL string, and the result does not depend on the
JSON decoder (no decoding is attempted). -/
theorem notFound_response_behavior {S : Type} (dec dec2 : String → S → S × Option String)
    (zero : S) (kc : kubeletClient) (node status body : String) :
    (kc.GetSummary dec zero node (FetchOutcome.response 404 status body)).2.2
      = some (GoError.notFound (kc.summaryURL node).urlString) ∧
    IsNotFoundError (kc.GetSummary dec zero node (FetchOutcome.response 404 status body)).2.2 = true ∧
    strIncludes (GoError.message (GoError.notFound (kc.summaryURL node).urlString))
      (kc.summaryURL node).urlString ∧
    kc.GetSummary dec zero node (FetchOutcome.response 404 status body)
      = kc.GetSummary dec2 zero node (FetchOutcome.response 404 status body) := by
  refine ⟨?_, ?_, ?_, ?_⟩
  · simp [kubeletClient.GetSummary, makeRequestAndGetValue]
  · simp [kubeletClient.GetSummary, makeRequestAndGetValue, IsNotFoundError]
  · exact strIncludes_start (kc.summaryURL node).urlString " not found"
  · simp [kubeletClient.GetSummary, makeRequestAndGetValue]

theorem notFound_response_behavior_witness :
    ((kubeletClient.mk 10250 false false "" none).GetSummary decEmptyObj 0 "node-1"
        (FetchOutcome.response 404 "404 Not Found" "nope")).2.2
      = some (GoError.notFound "https://node-1:10250/stats/summary/") := by
  have h := notFound_response_behavior decEmptyObj decEmptyObj 0
    (kubeletClient.mk 10250 false false "" none) "node-1" "404 Not Found" "nope"
  exact h.1.trans (by decide)

/-- C4 counterexample: a 201 response carries a 2xx success status and a
body the decoder accepts, yet GetSummary returns an error, because only
status 200 is treated as success by makeRequestAndGetValue. -/
theorem twoxx_success_claim_fails :
    decEmptyObj "\x7b\x7d" 0 = (0, none) ∧
    ((kubeletClient.mk 10250 false false "" none).GetSummary decEmptyObj 0 "node-1"
        (FetchOutcome.response 201 "201 Created" "\x7b\x7d")).2.2
      = some (GoError.generic "request failed - \"201 Created\", response: \"\x7b\x7d\"") := by
  exact ⟨rfl, by decide⟩

/-- C4 amended: a response with status exactly 200 whose body the JSON
decoder accepts yields no error, and the returned value is exactly the value
the decoder produced from the body. -/
theorem ok_status_decode_roundtrip {S : Type} (dec : String → S → S × Option String) (zero v : S)
    (kc : kubeletClient) (node status body : String) (hdec : dec body zero = (v, none)) :
    (kc.GetSummary dec zero node (FetchOutcome.response 200 status body)).2.1 = v ∧
    (kc.GetSummary dec zero node (FetchOutcome.response 200 status body)).2.2 = none := by
  simp [kubeletClient.GetSummary, makeRequestAndGetValue, hdec]

theorem ok_status_decode_roundtrip_witness :
    ((kubeletClient.mk 10250 false false "" none).GetSummary decEmptyObj 0 "node-1"
        (FetchOutcome.response 200 "200 OK" "\x7b\x7d")).2.1 = 0 ∧
    ((kubeletClient.mk 10250 false false "" none).GetSummary decEmptyObj 0 "node-1"
        (FetchOutcome.response 200 "200 OK" "\x7b\x7d")).2.2 = none :=
  ok_status_decode_roundtrip decEmptyObj 0 0 (kubeletClient.mk 10250 false false "" none)
    "node-1" "200 OK" "\x7b\x7d" rfl

/-- C5 counterexample: on a 200 response whose valid-but-mistyped body makes
the decoder fill the value before reporting a type error (as encoding/json
documents), GetSummary returns that partially filled value — different from
the zero value — together with a non-nil error: a partial value and an
error at once; and on a 201 response (a 2xx status) with a malformed body,
the returned error is the generic request-failed error, not a decode
error. -/
theorem no_partial_value_claim_fails :
    ((kubeletClient.mk 10250 false false "" none).GetSummary decPartialFill 0 "node-1"
        (FetchOutcome.response 200 "200 OK" "mistyped")).2.1 = 7 ∧
    ((kubeletClient.mk 10250 false false "" none).GetSummary decPartialFill 0 "node-1"
        (FetchOutcome.response 200 "200 OK" "mistyped")).2.1 ≠ 0 ∧
    ((kubeletClient.mk 10250 false false "" none).GetSummary decPartialFill 0 "node-1"
        (FetchOutcome.response 200 "200 OK" "mistyped")).2.2 ≠ none ∧
    ((kubeletClient.mk 10250 false false "" none).GetSummary decPartialFill 0 "node-1"
        (FetchOutcome.response 201 "201 Created" "not-json")).2.2
      = some (GoError.generic "request failed - \"201 Created\", response: \"not-json\"") := by
  exact ⟨by decide, by decide, by decide, by decide⟩

/-- C5 amended: every call ends in exactly one of three cases: the response
had status 200 and the body decoded cleanly, and exactly the decoded value
is returned with a nil error; or status 200 and the decode failed, and the
decoder's final (possibly partially filled) value state is returned next to
a generic parse error quoting the body; or any other outcome, where the
summary stays the zero value the call allocated and a non-nil error is
returned. In particular a 200 response with a body the decoder rejects
yields a decode error whose message contains the raw body text, returned
next to the decoder's final value state. -/
theorem getSummary_result_cases {S : Type} (dec : String → S → S × Option String) (zero : S)
    (kc : kubeletClient) (node : String) (outcome : FetchOutcome)
    (status body m : String) (v : S) (hdec : dec body zero = (v, some m)) :
    ((∃ st b w, outcome = FetchOutcome.response 200 st b ∧ dec b zero = (w, none) ∧
        (kc.GetSummary dec zero node outcome).2 = (w, none)) ∨
     (∃ st b w e, outcome = FetchOutcome.response 200 st b ∧ dec b zero = (w, some e) ∧
        (kc.GetSummary dec zero node outcome).2
          = (w, some (GoError.generic
              ("failed to parse output. Response: " ++ goQuote b ++ ". Error: " ++ e)))) ∨
     ((kc.GetSummary dec zero node outcome).2.1 = zero ∧
      (kc.GetSummary dec zero node outcome).2.2 ≠ none)) ∧
    ((kc.GetSummary dec zero node (FetchOutcome.response 200 status body)).2.1 = v ∧
     ∃ e, (kc.GetSummary dec zero node (FetchOutcome.response 200 status body)).2.2
        = some (GoError.generic e) ∧ strIncludes e body) := by
  constructor
  · rcases outcome with msg | msg | ⟨c, st, b⟩
    · right; right
      simp [kubeletClient.GetSummary, makeRequestAndGetValue]
    · right; right
      simp [kubeletClient.GetSummary, makeRequestAndGetValue]
    · by_cases h4 : c = 404
      · right; right
        simp [kubeletClient.GetSummary, makeRequestAndGetValue, h4]
      · by_cases h2 : c = 200
        · subst h2
          rcases hd : dec b zero with ⟨w, _ | e⟩
          · left
            exact ⟨st, b, w, rfl, hd, by
              simp [kubeletClient.GetSummary, makeRequestAndGetValue, hd]⟩
          · right; left
            exact ⟨st, b, w, e, rfl, hd, by
              simp [kubeletClient.GetSummary, makeRequestAndGetValue, hd]⟩
        · right; right
          simp [kubeletClient.GetSummary, makeRequestAndGetValue, h4, h2]
  · constructor
    · simp [kubeletClient.GetSummary, makeRequestAndGetValue, hdec]
    · refine ⟨"failed to parse output. Response: " ++ goQuote body ++ ". Error: " ++ m, ?_, ?_⟩
      · simp [kubeletClient.GetSummary, makeRequestAndGetValue, hdec]
      · rw [string_append_assoc ("failed to parse output. Response: " ++ goQuote body)
          ". Error: " m]
        exact strIncludes_mid "failed to parse output. Response: " body (". Error: " ++ m)

theorem getSummary_result_cases_witness :
    ((kubeletClient.mk 10250 false false "" none).GetSummary decPartialFill 0 "node-1"
        (FetchOutcome.response 200 "200 OK" "mistyped")).2.1 = 7 ∧
    ∃ e, ((kubeletClient.mk 10250 false false "" none).GetSummary decPartialFill 0 "node-1"
        (FetchOutcome.response 200 "200 OK" "mistyped")).2.2
      = some (GoError.generic e) ∧ strIncludes e "mistyped" := by
  have h := getSummary_result_cases decPartialFill 0 (kubeletClient.mk 10250 false false "" none)
    "node-1" (FetchOutcome.response 200 "200 OK" "mistyped") "200 OK" "mistyped"
    "cannot unmarshal string into field of type int64" 7 rfl
  exact h.2

/-- C6: a response whose status is neither in the 2xx range nor 404 makes
GetSummary return the generic request-failed error, which is not classified
as not-found, and whose message contains both the status line and the raw
body text. -/
theorem other_status_error {S : Type} (dec : String → S → S × Option String) (zero : S)
    (kc : kubeletClient) (node : String) (code : Nat) (status body : String)
    (hnot2xx : ¬ (200 ≤ code ∧ code < 300)) (hnot404 : code ≠ 404) :
    (kc.GetSummary dec zero node (FetchOutcome.response code status body)).2.2
      = some (GoError.generic
          ("request failed - " ++ goQuote status ++ ", response: " ++ goQuote body)) ∧
    IsNotFoundError
      (kc.GetSummary dec zero node (FetchOutcome.response code status body)).2.2 = false ∧
    strIncludes ("request failed - " ++ goQuote status ++ ", response: " ++ goQuote body) status ∧
    strIncludes ("request failed - " ++ goQuote status ++ ", response: " ++ goQuote body) body := by
  have h200 : code ≠ 200 := by omega
  refine ⟨?_, ?_, ?_, ?_⟩
  · simp [kubeletClient.GetSummary, makeRequestAndGetValue, hnot404, h200]
  · simp [kubeletClient.GetSummary, makeRequestAndGetValue, hnot404, h200, IsNotFoundError]
  · rw [string_append_assoc ("request failed - " ++ goQuote status) ", response: " (goQuote body)]
    exact strIncludes_mid "request failed - " status (", response: " ++ goQuote body)
  · exact strIncludes_end ("request failed - " ++ goQuote status ++ ", response: ") body

theorem other_status_error_witness :
    ((kubeletClient.mk 10250 false false "" none).GetSummary decEmptyObj 0 "node-1"
        (FetchOutcome.response 500 "500 Internal Server Error" "boom")).2.2
      = some (GoError.generic "request failed - \"500 Internal Server Error\", response: \"boom\"") ∧
    IsNotFoundError
      ((kubeletClient.mk 10250 false false "" none).GetSummary decEmptyObj 0 "node-1"
        (FetchOutcome.response 500 "500 Internal Server Error" "boom")).2.2 = false := by
  have h := other_status_error decEmptyObj 0 (kubeletClient.mk 10250 false false "" none)
    "node-1" 500 "500 Internal Server Error" "boom" (by omega) (by omega)
  exact ⟨h.1.trans (by decide), h.2.1⟩

/-- C10: IsNotFoundError classifies errors exactly: it holds of the typed
not-found error for every endpoint, and fails for a nil error, for every
generic error, and in particular for the errors built on a body-read
failure, on a 200 response whose body fails to decode, and on a 500
response. -/
theorem isNotFoundError_classification :
    IsNotFoundError none = false ∧
    (∀ ep, IsNotFoundError (some (GoError.notFound ep)) = true) ∧
    (∀ m, IsNotFoundError (some (GoError.generic m)) = false) ∧
    (∀ (S : Type) (client : Nat) (dec : String → S → S × Option String) (req : URL) (v0 : S)
        (msg : String),
      IsNotFoundError
        (makeRequestAndGetValue client dec req v0 (FetchOutcome.readError msg)).2 = false) ∧
    (∀ (client : Nat) (req : URL) (v0 : Nat) (status body m : String),
      IsNotFoundError
        (makeRequestAndGetValue client (fun _ v => (v, some m)) req v0
          (FetchOutcome.response 200 status body)).2 = false) ∧
    (∀ (S : Type) (client : Nat) (dec : String → S → S × Option String) (req : URL) (v0 : S)
        (status body : String),
      IsNotFoundError
        (makeRequestAndGetValue client dec req v0
          (FetchOutcome.response 500 status body)).2 = false) := by
  refine ⟨rfl, fun ep => rfl, fun m => rfl, ?_, ?_, ?_⟩
  · intro S client dec req v0 msg
    simp [makeRequestAndGetValue, IsNotFoundError]
  · intro client req v0 status body m
    simp [makeRequestAndGetValue, IsNotFoundError]
  · intro S client dec req v0 status body
    simp [makeRequestAndGetValue, IsNotFoundError]

/-- C9: GetSummary leaves every configuration field of the client record
unchanged; the fetcher holds no mutable state that a call could update. -/
theorem getSummary_config_frame {S : Type} (dec : String → S → S × Option String) (zero : S)
    (kc : kubeletClient) (node : String) (outcome : FetchOutcome) :
    (kc.GetSummary dec zero node outcome).1 = kc ∧
    (kc.GetSummary dec zero node outcome).1.port = kc.port ∧
    (kc.GetSummary dec zero node outcome).1.deprecatedNoTLS = kc.deprecatedNoTLS ∧
    (kc.GetSummary dec zero node outcome).1.useAPIProxy = kc.useAPIProxy ∧
    (kc.GetSummary dec zero node outcome).1.apiServerHost = kc.apiServerHost ∧
    (kc.GetSummary dec zero node outcome).1.client = kc.client :=
  ⟨rfl, rfl, rfl, rfl, rfl, rfl⟩
